import Mathlib

/-!
Verification of the circle-scoring core of the Atomic-circle repository.

The analyzed function is `analyzeCircle` from `src/services/geometry.ts`
(the implementation imported by `src/App.tsx`).  JavaScript numbers are
modelled as real numbers; `Math.sqrt` is `Real.sqrt`, `Math.abs` is `|·|`,
`Math.round` is Mathlib's `round` (both compute `⌊x + 1/2⌋`), and
`Array.prototype.reduce` with `+` from `0` is `List.foldl`.  The
`timestamp: Date.now()` field of the source's result record is an impure
clock read that the spec declares irrelevant to scoring; it is omitted
from the pure model.  Intermediate quantities of the source
(`sumX`, `userCenterX`, `distances`, `avgRadius`, ...) are transcribed as
standalone definitions, named as in the source, and `analyzeCircle`
composes them exactly as the source does.
-/

namespace Atomic

open Real

/-- Model of `Point` from `src/types` (the shape `{x, y}` used by
`analyzeCircle`): a pair of real coordinates. -/
structure Point where
  x : ℝ
  y : ℝ

/-- Model of `CircleResult` from `src/types`, minus the `timestamp` field
(an external clock read, unused in scoring). -/
structure CircleResult where
  score : ℝ
  centerX : ℝ
  centerY : ℝ
  radius : ℝ
  message : String
  isTooSmall : Bool
  notClosed : Bool

noncomputable section

/-- Source line 13: `points.reduce((acc, p) => acc + p.x, 0)`. -/
def sumX (points : List Point) : ℝ :=
  points.foldl (fun acc p => acc + p.x) 0

/-- Source line 14: `points.reduce((acc, p) => acc + p.y, 0)`. -/
def sumY (points : List Point) : ℝ :=
  points.foldl (fun acc p => acc + p.y) 0

/-- Source line 15: `sumX / points.length`. -/
def userCenterX (points : List Point) : ℝ :=
  sumX points / (points.length : ℝ)

/-- Source line 16: `sumY / points.length`. -/
def userCenterY (points : List Point) : ℝ :=
  sumY points / (points.length : ℝ)

/-- Source lines 19-23: the list of distances of the samples from the
centroid, `points.map(p => Math.sqrt(dx*dx + dy*dy))`. -/
def distances (points : List Point) : List ℝ :=
  points.map (fun p =>
    Real.sqrt ((p.x - userCenterX points) * (p.x - userCenterX points) +
      (p.y - userCenterY points) * (p.y - userCenterY points)))

/-- Source line 24: `distances.reduce((acc, d) => acc + d, 0) / distances.length`. -/
def avgRadius (points : List Point) : ℝ :=
  (distances points).foldl (fun acc d => acc + d) 0 / ((distances points).length : ℝ)

/-- Source line 35: `distances.reduce((acc, d) => acc + Math.abs(d - avgRadius), 0)`. -/
def totalDeviation (points : List Point) : ℝ :=
  (distances points).foldl (fun acc d => acc + |d - avgRadius points|) 0

/-- Source line 36: `totalDeviation / distances.length`. -/
def meanDeviation (points : List Point) : ℝ :=
  totalDeviation points / ((distances points).length : ℝ)

/-- Source line 38: `meanDeviation / avgRadius`. -/
def relativeDeviation (points : List Point) : ℝ :=
  meanDeviation points / avgRadius points

/-- Source lines 41-43: straight-line distance between the first and the
last sample.  The source indexes `points[0]` and `points[points.length-1]`,
reached only when `points.length >= 10`; the defaults of `headD`/`getLastD`
are never used on that path. -/
def gap (points : List Point) : ℝ :=
  Real.sqrt (((points.getLastD ⟨0, 0⟩).x - (points.headD ⟨0, 0⟩).x) ^ 2 +
    ((points.getLastD ⟨0, 0⟩).y - (points.headD ⟨0, 0⟩).y) ^ 2)

/-- Source line 56: distance between the fitted center and the nucleus. -/
def distFromNucleus (points : List Point) (nucleus : Point) : ℝ :=
  Real.sqrt ((userCenterX points - nucleus.x) ^ 2 + (userCenterY points - nucleus.y) ^ 2)

/-- Source line 57: `distFromNucleus / avgRadius`. -/
def centeringError (points : List Point) (nucleus : Point) : ℝ :=
  distFromNucleus points nucleus / avgRadius points

/-- Source lines 61-72: the running `score` variable just before the final
clamp: deviation curve, centering penalty, conditional residual-gap
penalty, conditional satisfaction bonus. -/
def preScore (points : List Point) (nucleus : Point) : ℝ :=
  let s1 := 100 * (1 - relativeDeviation points / 0.5)
  let s2 := s1 - centeringError points nucleus * 10
  let s3 := if gap points > avgRadius points * 0.2
    then s2 - (gap points / avgRadius points) * 15 else s2
  if s3 > 40 then s3 + 8 else s3

/-- Source line 74: `score = Math.max(0, Math.min(100, score))`. -/
def clampedScore (points : List Point) (nucleus : Point) : ℝ :=
  max 0 (min 100 (preScore points nucleus))

/-- Source lines 76-84: the message tier chain.  The chain's `else` arm
always assigns, so the initial `"Keep it up!"` value is dead. -/
def messageOf (score : ℝ) : String :=
  if score > 98 then "ABSOLUTE PRECISION"
  else if score > 95 then "Perfect Orbit!"
  else if score > 90 then "Nuclear Symmetry!"
  else if score > 80 then "Strong Form!"
  else if score > 65 then "Good Loop!"
  else if score > 45 then "Stable enough."
  else if score > 20 then "Unstable orbit."
  else "Fragmented."

/-- Model of `analyzeCircle` from `src/services/geometry.ts` lines 4-96. -/
def analyzeCircle (points : List Point) (nucleus : Point) : CircleResult :=
  if points.length < 10 then
    { score := 0, centerX := 0, centerY := 0, radius := 0,
      message := "Draw a loop!", isTooSmall := true, notClosed := false }
  else if avgRadius points < 15 then
    { score := 0, centerX := userCenterX points, centerY := userCenterY points,
      radius := avgRadius points,
      message := "Too small!", isTooSmall := true, notClosed := false }
  else if gap points > avgRadius points * 0.6 then
    { score := 0, centerX := userCenterX points, centerY := userCenterY points,
      radius := avgRadius points,
      message := "Close the loop!", isTooSmall := false, notClosed := true }
  else
    { score := ((round (clampedScore points nucleus) : ℤ) : ℝ),
      centerX := userCenterX points, centerY := userCenterY points,
      radius := avgRadius points,
      message := messageOf (clampedScore points nucleus),
      isTooSmall := false, notClosed := false }

end

/-- Claim C1: the returned result never has `isTooSmall` and `notClosed`
both true, and whenever either flag is true the returned score is 0
(stated without implications: either the score is 0, or both flags are
false). -/
theorem claim1_flags_exclusive_and_zero_score (points : List Point) (nucleus : Point) :
    ((analyzeCircle points nucleus).isTooSmall = false ∨
      (analyzeCircle points nucleus).notClosed = false) ∧
    ((analyzeCircle points nucleus).score = 0 ∨
      ((analyzeCircle points nucleus).isTooSmall = false ∧
        (analyzeCircle points nucleus).notClosed = false)) := by
  unfold analyzeCircle
  split_ifs <;> simp

/-- Claim C4: a stroke with fewer than 10 samples is rejected immediately:
`isTooSmall = true`, `score = 0`, and no geometric fitting is performed
(the returned center and radius are the literal zeros of the early return,
not fitted values). -/
theorem claim4_min_samples (points : List Point) (nucleus : Point)
    (h : points.length < 10) :
    (analyzeCircle points nucleus).isTooSmall = true ∧
    (analyzeCircle points nucleus).score = 0 ∧
    (analyzeCircle points nucleus).centerX = 0 ∧
    (analyzeCircle points nucleus).centerY = 0 ∧
    (analyzeCircle points nucleus).radius = 0 := by
  unfold analyzeCircle
  rw [if_pos h]
  simp

/-- Witness for C4 at the empty stroke. -/
theorem claim4_min_samples_witness :
    ([] : List Point).length < 10 ∧
    ((analyzeCircle [] ⟨0, 0⟩).isTooSmall = true ∧
      (analyzeCircle [] ⟨0, 0⟩).score = 0 ∧
      (analyzeCircle [] ⟨0, 0⟩).centerX = 0 ∧
      (analyzeCircle [] ⟨0, 0⟩).centerY = 0 ∧
      (analyzeCircle [] ⟨0, 0⟩).radius = 0) :=
  ⟨by simp, claim4_min_samples [] ⟨0, 0⟩ (by simp)⟩

/-- Claim C8: the returned score is always an integer in [0, 100]. -/
theorem claim8_score_integer_range (points : List Point) (nucleus : Point) :
    ∃ m : ℤ, (analyzeCircle points nucleus).score = (m : ℝ) ∧ 0 ≤ m ∧ m ≤ 100 := by
  unfold analyzeCircle
  split_ifs
  · exact ⟨0, by simp⟩
  · exact ⟨0, by simp⟩
  · exact ⟨0, by simp⟩
  · refine ⟨round (clampedScore points nucleus), rfl, ?_, ?_⟩
    · have h0 : (0 : ℝ) ≤ clampedScore points nucleus := le_max_left _ _
      rw [round_eq]
      exact Int.floor_nonneg.mpr (by linarith)
    · have h100 : clampedScore points nucleus ≤ 100 :=
        max_le (by norm_num) (min_le_left _ _)
      rw [round_eq]
      have hle : clampedScore points nucleus + 1 / 2 ≤ 100 + 1 / 2 := by linarith
      calc ⌊clampedScore points nucleus + 1 / 2⌋ ≤ ⌊(100 : ℝ) + 1 / 2⌋ :=
            Int.floor_le_floor hle
        _ = 100 := by norm_num [Int.floor_eq_iff]

/-- Claim C10: the nucleus argument cannot influence the rejection verdicts
or the fitted geometry; results for the same stroke and two nuclei agree on
`isTooSmall`, `notClosed`, `centerX`, `centerY`, `radius`. -/
theorem claim10_nucleus_noninterference (points : List Point) (n1 n2 : Point) :
    (analyzeCircle points n1).isTooSmall = (analyzeCircle points n2).isTooSmall ∧
    (analyzeCircle points n1).notClosed = (analyzeCircle points n2).notClosed ∧
    (analyzeCircle points n1).centerX = (analyzeCircle points n2).centerX ∧
    (analyzeCircle points n1).centerY = (analyzeCircle points n2).centerY ∧
    (analyzeCircle points n1).radius = (analyzeCircle points n2).radius := by
  unfold analyzeCircle
  split_ifs <;> simp

/-! Bridge lemmas: the source's `reduce`-style folds as list sums. -/

theorem foldl_add_eq {α : Type} (f : α → ℝ) (l : List α) (r : ℝ) :
    l.foldl (fun acc a => acc + f a) r = r + (l.map f).sum := by
  induction l generalizing r with
  | nil => simp
  | cons a t ih =>
    simp only [List.foldl, List.map, List.sum_cons]
    rw [ih]
    ring

theorem sumX_eq (points : List Point) : sumX points = (points.map Point.x).sum := by
  simpa [sumX] using foldl_add_eq Point.x points 0

theorem sumY_eq (points : List Point) : sumY points = (points.map Point.y).sum := by
  simpa [sumY] using foldl_add_eq Point.y points 0

theorem avgRadius_eq (points : List Point) :
    avgRadius points = (distances points).sum / (points.length : ℝ) := by
  rw [avgRadius]
  rw [show (distances points).foldl (fun acc d => acc + d) 0 = (distances points).sum by
    simpa using foldl_add_eq (fun d => d) (distances points) 0]
  simp [distances]

theorem totalDeviation_eq (points : List Point) :
    totalDeviation points =
      ((distances points).map (fun d => |d - avgRadius points|)).sum := by
  simpa [totalDeviation] using
    foldl_add_eq (fun d => |d - avgRadius points|) (distances points) 0

/-- Degenerate strokes whose samples are all one point have fitted radius 0. -/
theorem avgRadius_of_const (points : List Point) (q : Point)
    (h : ∀ p ∈ points, p = q) : avgRadius points = 0 := by
  rcases eq_or_ne points [] with rfl | hne
  · simp [avgRadius, distances]
  have hlen : (points.length : ℝ) ≠ 0 := by
    have := List.length_pos.mpr hne
    positivity
  have hx : userCenterX points = q.x := by
    rw [userCenterX, sumX_eq]
    rw [show points.map Point.x = List.replicate points.length q.x by
      refine List.eq_replicate_of_mem ?_ |>.trans (by rw [List.length_map])
      intro b hb
      rcases List.mem_map.mp hb with ⟨p, hp, rfl⟩
      rw [h p hp]]
    rw [List.sum_replicate, nsmul_eq_mul]
    field_simp
  have hy : userCenterY points = q.y := by
    rw [userCenterY, sumY_eq]
    rw [show points.map Point.y = List.replicate points.length q.y by
      refine List.eq_replicate_of_mem ?_ |>.trans (by rw [List.length_map])
      intro b hb
      rcases List.mem_map.mp hb with ⟨p, hp, rfl⟩
      rw [h p hp]]
    rw [List.sum_replicate, nsmul_eq_mul]
    field_simp
  have hdist : distances points = List.replicate points.length 0 := by
    rw [distances, hx, hy]
    rw [List.map_congr_left (g := fun _ => (0 : ℝ)) ?_]
    · exact List.map_const' points 0
    · intro p hp
      rw [h p hp]
      simp
  rw [avgRadius_eq, hdist, List.sum_replicate]
  simp

/-- Helper for evaluating square roots of perfect squares at witnesses. -/
theorem sqrt_eval {a b : ℝ} (hb : 0 ≤ b) (h : b ^ 2 = a) : Real.sqrt a = b := by
  rw [← h]
  exact Real.sqrt_sq hb

/-- Witness input: twelve coincident samples at (5, 5) — a stroke that
passes the sample-count check but has fitted radius 0. -/
def tinyPts : List Point :=
  [⟨5, 5⟩, ⟨5, 5⟩, ⟨5, 5⟩, ⟨5, 5⟩, ⟨5, 5⟩, ⟨5, 5⟩,
   ⟨5, 5⟩, ⟨5, 5⟩, ⟨5, 5⟩, ⟨5, 5⟩, ⟨5, 5⟩, ⟨5, 5⟩]

theorem tinyPts_const : ∀ p ∈ tinyPts, p = (⟨5, 5⟩ : Point) := by
  intro p hp
  simp only [tinyPts, List.mem_cons, List.not_mem_nil, or_false] at hp
  rcases hp with h | h | h | h | h | h | h | h | h | h | h | h <;> exact h

theorem avg_tiny : avgRadius tinyPts = 0 :=
  avgRadius_of_const tinyPts ⟨5, 5⟩ tinyPts_const

/-- Claim C5: a stroke whose fitted radius (mean distance of the samples
from their centroid) is below the minimum-radius threshold 15 is flagged
`isTooSmall`, regardless of sample count (strokes under the sample-count
threshold take the first rejection branch, which also sets the flag). -/
theorem claim5_min_radius (points : List Point) (nucleus : Point)
    (h : avgRadius points < 15) :
    (analyzeCircle points nucleus).isTooSmall = true := by
  unfold analyzeCircle
  split_ifs with h1
  · rfl
  · rfl

/-- Witness for C5: the coincident-sample stroke has fitted radius 0 < 15
and is flagged too small. -/
theorem claim5_min_radius_witness :
    avgRadius tinyPts < 15 ∧ (analyzeCircle tinyPts ⟨0, 0⟩).isTooSmall = true :=
  ⟨by rw [avg_tiny]; norm_num,
   claim5_min_radius tinyPts ⟨0, 0⟩ (by rw [avg_tiny]; norm_num)⟩

/-- Claim C6: `analyzeCircle` is total (it is a Lean function into
`CircleResult`, so every input yields a well-defined result) and never
divides by a zero radius: whenever the result is not flagged `isTooSmall`
— i.e. on every path that divides by the fitted radius — that radius is
at least 15, and a stroke of identical samples (fitted radius exactly 0)
is handled by a too-small branch with score 0. -/
theorem claim6_no_division_by_zero_radius (points : List Point) (nucleus : Point) :
    ((analyzeCircle points nucleus).isTooSmall = false → 15 ≤ avgRadius points) ∧
    (∀ q : Point, (∀ p ∈ points, p = q) →
      (analyzeCircle points nucleus).isTooSmall = true ∧
        (analyzeCircle points nucleus).score = 0) := by
  constructor
  · intro hfalse
    unfold analyzeCircle at hfalse
    split_ifs at hfalse with h1 h2 h3
    · exact le_of_not_lt h2
    · exact le_of_not_lt h2
  · intro q hq
    have h0 : avgRadius points = 0 := avgRadius_of_const points q hq
    unfold analyzeCircle
    split_ifs with h1 h2 h3
    · exact ⟨rfl, rfl⟩
    · exact ⟨rfl, rfl⟩
    · exact absurd (h0 ▸ h2) (by norm_num)
    · exact absurd (h0 ▸ h2) (by norm_num)

/-- Witness for C6 at the coincident-sample stroke. -/
theorem claim6_no_division_by_zero_radius_witness :
    (analyzeCircle tinyPts ⟨0, 0⟩).isTooSmall = true ∧
      (analyzeCircle tinyPts ⟨0, 0⟩).score = 0 :=
  (claim6_no_division_by_zero_radius tinyPts ⟨0, 0⟩).2 ⟨5, 5⟩ tinyPts_const

/-- Claim C3: for a stroke that passes the minimum-sample and
minimum-radius checks, a start/end gap exceeding the fitted radius times
the closure fraction 0.6 yields `notClosed = true` and `score = 0`. -/
theorem claim3_not_closed (points : List Point) (nucleus : Point)
    (hlen : 10 ≤ points.length) (hrad : 15 ≤ avgRadius points)
    (hgap : gap points > avgRadius points * 0.6) :
    (analyzeCircle points nucleus).notClosed = true ∧
      (analyzeCircle points nucleus).score = 0 := by
  unfold analyzeCircle
  rw [if_neg (Nat.not_lt.mpr hlen), if_neg (not_lt.mpr hrad), if_pos hgap]
  exact ⟨rfl, rfl⟩

/-- Witness input for C3: twelve samples on the circle of radius 25 about
the origin (all coordinates are Pythagorean, so every sample is at
distance exactly 25 from the centroid), ordered so that the stroke starts
at (25, 0) and ends at the antipode (-25, 0): an open arc ordering. -/
def circ12open : List Point :=
  [⟨25, 0⟩, ⟨0, 25⟩, ⟨15, 20⟩, ⟨-15, -20⟩, ⟨20, 15⟩, ⟨-20, -15⟩,
   ⟨0, -25⟩, ⟨15, -20⟩, ⟨-15, 20⟩, ⟨-24, -7⟩, ⟨24, 7⟩, ⟨-25, 0⟩]

theorem sqrt625 : Real.sqrt 625 = 25 := sqrt_eval (by norm_num) (by norm_num)

theorem sqrt2500 : Real.sqrt 2500 = 50 := sqrt_eval (by norm_num) (by norm_num)

theorem ucx_circ12open : userCenterX circ12open = 0 := by
  simp [userCenterX, sumX, circ12open]

theorem ucy_circ12open : userCenterY circ12open = 0 := by
  simp [userCenterY, sumY, circ12open]

theorem avg_circ12open : avgRadius circ12open = 25 := by
  simp only [avgRadius, distances, ucx_circ12open, ucy_circ12open]
  simp only [circ12open, List.map, List.foldl, List.length]
  norm_num [sqrt625]

theorem gap_circ12open : gap circ12open = 50 := by
  simp only [gap, circ12open]
  norm_num [sqrt2500]

/-- Witness for C3 at the open-arc ordering of the radius-25 stroke. -/
theorem claim3_not_closed_witness :
    (10 ≤ circ12open.length ∧ 15 ≤ avgRadius circ12open ∧
      gap circ12open > avgRadius circ12open * 0.6) ∧
    ((analyzeCircle circ12open ⟨0, 0⟩).notClosed = true ∧
      (analyzeCircle circ12open ⟨0, 0⟩).score = 0) :=
  ⟨⟨by norm_num [circ12open],
    by rw [avg_circ12open]; norm_num,
    by rw [avg_circ12open, gap_circ12open]; norm_num⟩,
   claim3_not_closed circ12open ⟨0, 0⟩
     (by norm_num [circ12open])
     (by rw [avg_circ12open]; norm_num)
     (by rw [avg_circ12open, gap_circ12open]; norm_num)⟩

/-! Scaling machinery for the scale-invariance claim: `scalePt k` is the
uniform scaling of a point by `k` about the origin. -/

noncomputable def scalePt (k : ℝ) (p : Point) : Point := ⟨k * p.x, k * p.y⟩

theorem sumX_scale (k : ℝ) (points : List Point) :
    sumX (points.map (scalePt k)) = k * sumX points := by
  rw [sumX_eq, sumX_eq, List.map_map]
  rw [show Point.x ∘ scalePt k = fun p => k * Point.x p from rfl]
  exact List.sum_map_mul_left points Point.x k

theorem sumY_scale (k : ℝ) (points : List Point) :
    sumY (points.map (scalePt k)) = k * sumY points := by
  rw [sumY_eq, sumY_eq, List.map_map]
  rw [show Point.y ∘ scalePt k = fun p => k * Point.y p from rfl]
  exact List.sum_map_mul_left points Point.y k

theorem userCenterX_scale (k : ℝ) (points : List Point) :
    userCenterX (points.map (scalePt k)) = k * userCenterX points := by
  rw [userCenterX, userCenterX, sumX_scale, List.length_map, mul_div_assoc]

theorem userCenterY_scale (k : ℝ) (points : List Point) :
    userCenterY (points.map (scalePt k)) = k * userCenterY points := by
  rw [userCenterY, userCenterY, sumY_scale, List.length_map, mul_div_assoc]

theorem distances_scale (k : ℝ) (hk : 0 ≤ k) (points : List Point) :
    distances (points.map (scalePt k)) = (distances points).map (fun d => k * d) := by
  rw [distances, distances, List.map_map, List.map_map]
  refine List.map_congr_left ?_
  intro p _
  show Real.sqrt ((k * p.x - userCenterX (points.map (scalePt k))) *
      (k * p.x - userCenterX (points.map (scalePt k))) +
      (k * p.y - userCenterY (points.map (scalePt k))) *
      (k * p.y - userCenterY (points.map (scalePt k)))) = _
  rw [userCenterX_scale, userCenterY_scale]
  have hsq : (k * p.x - k * userCenterX points) * (k * p.x - k * userCenterX points) +
      (k * p.y - k * userCenterY points) * (k * p.y - k * userCenterY points) =
      k ^ 2 * ((p.x - userCenterX points) * (p.x - userCenterX points) +
        (p.y - userCenterY points) * (p.y - userCenterY points)) := by ring
  rw [hsq, Real.sqrt_mul (sq_nonneg k), Real.sqrt_sq hk]
  rfl

theorem avgRadius_scale (k : ℝ) (hk : 0 ≤ k) (points : List Point) :
    avgRadius (points.map (scalePt k)) = k * avgRadius points := by
  rw [avgRadius_eq, avgRadius_eq, distances_scale k hk, List.length_map]
  rw [show ((distances points).map (fun d => k * d)).sum = k * (distances points).sum by
    simpa using List.sum_map_mul_left (distances points) (fun d => d) k]
  rw [mul_div_assoc]

theorem totalDeviation_scale (k : ℝ) (hk : 0 ≤ k) (points : List Point) :
    totalDeviation (points.map (scalePt k)) = k * totalDeviation points := by
  rw [totalDeviation_eq, totalDeviation_eq, distances_scale k hk,
    avgRadius_scale k hk, List.map_map]
  rw [show ((fun d => |d - k * avgRadius points|) ∘ fun d => k * d) =
      fun d => k * |d - avgRadius points| by
    funext d
    show |k * d - k * avgRadius points| = k * |d - avgRadius points|
    rw [← mul_sub, abs_mul, abs_of_nonneg hk]]
  exact List.sum_map_mul_left (distances points) (fun d => |d - avgRadius points|) k

theorem meanDeviation_scale (k : ℝ) (hk : 0 ≤ k) (points : List Point) :
    meanDeviation (points.map (scalePt k)) = k * meanDeviation points := by
  rw [meanDeviation, meanDeviation, totalDeviation_scale k hk]
  simp [distances, mul_div_assoc]

theorem relativeDeviation_scale (k : ℝ) (hk : 0 < k) (points : List Point) :
    relativeDeviation (points.map (scalePt k)) = relativeDeviation points := by
  rw [relativeDeviation, relativeDeviation, meanDeviation_scale k hk.le,
    avgRadius_scale k hk.le]
  exact mul_div_mul_left _ _ hk.ne'

theorem gap_scale (k : ℝ) (hk : 0 ≤ k) (points : List Point) :
    gap (points.map (scalePt k)) = k * gap points := by
  have hhead : (points.map (scalePt k)).headD ⟨0, 0⟩ = scalePt k (points.headD ⟨0, 0⟩) := by
    cases points <;> simp [scalePt]
  have hlast : (points.map (scalePt k)).getLastD ⟨0, 0⟩ =
      scalePt k (points.getLastD ⟨0, 0⟩) := by
    rw [List.getLastD_eq_getLast?, List.getLastD_eq_getLast?, List.getLast?_map]
    cases points.getLast? <;> simp [scalePt]
  rw [gap, gap, hhead, hlast]
  show Real.sqrt ((k * _ - k * _) ^ 2 + (k * _ - k * _) ^ 2) = _
  rw [show (k * (points.getLastD ⟨0, 0⟩).x - k * (points.headD ⟨0, 0⟩).x) ^ 2 +
      (k * (points.getLastD ⟨0, 0⟩).y - k * (points.headD ⟨0, 0⟩).y) ^ 2 =
      k ^ 2 * (((points.getLastD ⟨0, 0⟩).x - (points.headD ⟨0, 0⟩).x) ^ 2 +
        ((points.getLastD ⟨0, 0⟩).y - (points.headD ⟨0, 0⟩).y) ^ 2) by ring]
  rw [Real.sqrt_mul (sq_nonneg k), Real.sqrt_sq hk]

theorem distFromNucleus_scale (k : ℝ) (hk : 0 ≤ k) (points : List Point) (nucleus : Point) :
    distFromNucleus (points.map (scalePt k)) (scalePt k nucleus) =
      k * distFromNucleus points nucleus := by
  rw [distFromNucleus, distFromNucleus, userCenterX_scale, userCenterY_scale]
  show Real.sqrt ((k * userCenterX points - k * nucleus.x) ^ 2 +
    (k * userCenterY points - k * nucleus.y) ^ 2) = _
  rw [show (k * userCenterX points - k * nucleus.x) ^ 2 +
      (k * userCenterY points - k * nucleus.y) ^ 2 =
      k ^ 2 * ((userCenterX points - nucleus.x) ^ 2 +
        (userCenterY points - nucleus.y) ^ 2) by ring]
  rw [Real.sqrt_mul (sq_nonneg k), Real.sqrt_sq hk]

theorem preScore_scale (k : ℝ) (points : List Point) (nucleus : Point) (hk : 0 < k) :
    preScore (points.map (scalePt k)) (scalePt k nucleus) = preScore points nucleus := by
  unfold preScore centeringError
  rw [relativeDeviation_scale k hk points, avgRadius_scale k hk.le points,
    gap_scale k hk.le points, distFromNucleus_scale k hk.le points nucleus,
    mul_div_mul_left _ _ hk.ne']
  have hdiv : k * gap points / (k * avgRadius points) = gap points / avgRadius points :=
    mul_div_mul_left _ _ hk.ne'
  have hcond : (k * gap points > k * avgRadius points * 0.2) ↔
      (gap points > avgRadius points * 0.2) := by
    rw [mul_assoc]
    exact mul_lt_mul_left hk
  simp only [hdiv, hcond]

/-- Counterexample to C2 as stated: scaling the radius-25 stroke by the
positive constant k = 1/2 drags its fitted radius from 25 to 12.5, across
the absolute minimum-radius threshold 15, so `isTooSmall` flips from
`false` to `true` (and the score drops to 0): `analyzeCircle` is not
scale-invariant for every positive k. -/
theorem claim2_scale_invariance_counterexample :
    (analyzeCircle circ12open ⟨0, 0⟩).isTooSmall = false ∧
    (analyzeCircle (circ12open.map (scalePt (1 / 2))) (scalePt (1 / 2) ⟨0, 0⟩)).isTooSmall =
      true := by
  constructor
  · unfold analyzeCircle
    rw [if_neg (by norm_num [circ12open]), if_neg (by rw [avg_circ12open]; norm_num),
      if_pos (by rw [avg_circ12open, gap_circ12open]; norm_num)]
  · have havg : avgRadius (circ12open.map (scalePt (1 / 2))) = 12.5 := by
      rw [avgRadius_scale (1 / 2) (by norm_num) circ12open, avg_circ12open]
      norm_num
    unfold analyzeCircle
    rw [if_neg (by rw [List.length_map]; norm_num [circ12open]),
      if_pos (by rw [havg]; norm_num)]

/-- Claim C2, amended: scale invariance holds for every stroke, reference
center and positive k, provided the scaling does not move the fitted
radius across the absolute minimum-radius threshold 15 (the verdict of
the `avgRadius < 15` check is the same before and after scaling); then
score, `isTooSmall` and `notClosed` are unchanged and the radius scales
by k. -/
theorem claim2_scale_invariance_amended (points : List Point) (nucleus : Point)
    (k : ℝ) (hk : 0 < k)
    (hiff : avgRadius (points.map (scalePt k)) < 15 ↔ avgRadius points < 15) :
    (analyzeCircle (points.map (scalePt k)) (scalePt k nucleus)).score =
      (analyzeCircle points nucleus).score ∧
    (analyzeCircle (points.map (scalePt k)) (scalePt k nucleus)).isTooSmall =
      (analyzeCircle points nucleus).isTooSmall ∧
    (analyzeCircle (points.map (scalePt k)) (scalePt k nucleus)).notClosed =
      (analyzeCircle points nucleus).notClosed ∧
    (analyzeCircle (points.map (scalePt k)) (scalePt k nucleus)).radius =
      k * (analyzeCircle points nucleus).radius := by
  have havg := avgRadius_scale k hk.le points
  have hgap := gap_scale k hk.le points
  unfold analyzeCircle
  rw [List.length_map]
  by_cases h1 : points.length < 10
  · rw [if_pos h1, if_pos h1]
    exact ⟨rfl, rfl, rfl, by simp⟩
  · rw [if_neg h1, if_neg h1]
    by_cases h2 : avgRadius points < 15
    · rw [if_pos (hiff.mpr h2), if_pos h2]
      exact ⟨rfl, rfl, rfl, havg⟩
    · rw [if_neg (fun hc => h2 (hiff.mp hc)), if_neg h2]
      have h3iff : gap (points.map (scalePt k)) >
          avgRadius (points.map (scalePt k)) * 0.6 ↔
          gap points > avgRadius points * 0.6 := by
        rw [hgap, havg, mul_assoc]
        exact mul_lt_mul_left hk
      by_cases h3 : gap points > avgRadius points * 0.6
      · rw [if_pos (h3iff.mpr h3), if_pos h3]
        exact ⟨rfl, rfl, rfl, havg⟩
      · rw [if_neg (fun hc => h3 (h3iff.mp hc)), if_neg h3]
        have hclamp : clampedScore (points.map (scalePt k)) (scalePt k nucleus) =
            clampedScore points nucleus := by
          unfold clampedScore
          rw [preScore_scale k points nucleus hk]
        exact ⟨by rw [hclamp], rfl, rfl, havg⟩

/-- Witness for the amended C2: the radius-25 stroke scaled by k = 2 keeps
its score and verdict flags while its radius doubles. -/
theorem claim2_scale_invariance_amended_witness :
    ((0 : ℝ) < 2 ∧
      (avgRadius (circ12open.map (scalePt 2)) < 15 ↔ avgRadius circ12open < 15)) ∧
    ((analyzeCircle (circ12open.map (scalePt 2)) (scalePt 2 ⟨0, 0⟩)).score =
        (analyzeCircle circ12open ⟨0, 0⟩).score ∧
      (analyzeCircle (circ12open.map (scalePt 2)) (scalePt 2 ⟨0, 0⟩)).isTooSmall =
        (analyzeCircle circ12open ⟨0, 0⟩).isTooSmall ∧
      (analyzeCircle (circ12open.map (scalePt 2)) (scalePt 2 ⟨0, 0⟩)).notClosed =
        (analyzeCircle circ12open ⟨0, 0⟩).notClosed ∧
      (analyzeCircle (circ12open.map (scalePt 2)) (scalePt 2 ⟨0, 0⟩)).radius =
        2 * (analyzeCircle circ12open ⟨0, 0⟩).radius) :=
  ⟨⟨by norm_num,
    by rw [avgRadius_scale 2 (by norm_num) circ12open, avg_circ12open]; norm_num⟩,
   claim2_scale_invariance_amended circ12open ⟨0, 0⟩ 2 (by norm_num)
     (by rw [avgRadius_scale 2 (by norm_num) circ12open, avg_circ12open]; norm_num)⟩

/-- Input for C9: fourteen samples on the circle of radius 25 about the
origin whose coordinate multiset is balanced (sums to zero) and whose
first and last samples coincide at (25, 0), so the fitted center is the
origin, every sample is at distance exactly 25 from it, and the closure
gap is 0. -/
def circ14 : List Point :=
  [⟨25, 0⟩, ⟨0, 25⟩, ⟨-25, 0⟩, ⟨15, 20⟩, ⟨-15, -20⟩, ⟨20, 15⟩, ⟨-20, -15⟩,
   ⟨7, 24⟩, ⟨-7, -24⟩, ⟨-25, 0⟩, ⟨24, 7⟩, ⟨-24, -7⟩, ⟨0, -25⟩, ⟨25, 0⟩]

theorem ucx_circ14 : userCenterX circ14 = 0 := by
  simp [userCenterX, sumX, circ14]

theorem ucy_circ14 : userCenterY circ14 = 0 := by
  simp [userCenterY, sumY, circ14]

theorem distances_circ14 : distances circ14 = List.replicate 14 25 := by
  simp only [distances, ucx_circ14, ucy_circ14]
  simp only [circ14, List.map]
  norm_num [sqrt625, List.replicate]

theorem avg_circ14 : avgRadius circ14 = 25 := by
  rw [avgRadius_eq, distances_circ14, List.sum_replicate]
  norm_num [circ14]

theorem gap_circ14 : gap circ14 = 0 := by
  simp only [gap, circ14]
  norm_num

theorem relDev_circ14 : relativeDeviation circ14 = 0 := by
  rw [relativeDeviation, meanDeviation, totalDeviation_eq, distances_circ14, avg_circ14]
  norm_num

/-- Evaluation of the analyzer on `circ14` for a nucleus at distance t on
the x-axis, as a function of the rational penalty arithmetic: used for the
two concrete C9 inputs. -/
theorem preScore_circ14 (t : ℝ) (ht : 0 ≤ t) (ht2 : t < 150) :
    preScore circ14 ⟨t, 0⟩ = 108 - t * 2 / 5 := by
  have hdist : distFromNucleus circ14 ⟨t, 0⟩ = t := by
    rw [distFromNucleus, ucx_circ14, ucy_circ14]
    rw [show (0 - t) ^ 2 + (0 - 0 : ℝ) ^ 2 = t ^ 2 by ring]
    exact Real.sqrt_sq ht
  have hce : centeringError circ14 ⟨t, 0⟩ = t / 25 := by
    rw [centeringError, hdist, avg_circ14]
  simp only [preScore]
  rw [relDev_circ14, hce, gap_circ14, avg_circ14]
  have h1 : ¬((0 : ℝ) > 25 * 0.2) := by norm_num
  rw [if_neg h1]
  have h2 : 100 * (1 - 0 / 0.5) - t / 25 * 10 > 40 := by
    norm_num
    linarith
  rw [if_pos h2]
  ring

theorem result_circ14_inner : analyzeCircle circ14 ⟨24.5, 0⟩ =
    { score := 98, centerX := 0, centerY := 0, radius := 25,
      message := "ABSOLUTE PRECISION", isTooSmall := false, notClosed := false } := by
  have hpre : preScore circ14 ⟨24.5, 0⟩ = 98.2 := by
    rw [preScore_circ14 (24.5 : ℝ) (by norm_num) (by norm_num)]
    norm_num
  have hclamp : clampedScore circ14 ⟨24.5, 0⟩ = 98.2 := by
    rw [clampedScore, hpre]
    norm_num
  unfold analyzeCircle
  rw [if_neg (by norm_num [circ14]), if_neg (by rw [avg_circ14]; norm_num),
    if_neg (by rw [gap_circ14, avg_circ14]; norm_num)]
  rw [hclamp, ucx_circ14, ucy_circ14, avg_circ14]
  congr 1
  · rw [round_eq]
    norm_num
  · rw [messageOf, if_pos (by norm_num)]

theorem result_circ14_outer : analyzeCircle circ14 ⟨25.5, 0⟩ =
    { score := 98, centerX := 0, centerY := 0, radius := 25,
      message := "Perfect Orbit!", isTooSmall := false, notClosed := false } := by
  have hpre : preScore circ14 ⟨25.5, 0⟩ = 97.8 := by
    rw [preScore_circ14 (25.5 : ℝ) (by norm_num) (by norm_num)]
    norm_num
  have hclamp : clampedScore circ14 ⟨25.5, 0⟩ = 97.8 := by
    rw [clampedScore, hpre]
    norm_num
  unfold analyzeCircle
  rw [if_neg (by norm_num [circ14]), if_neg (by rw [avg_circ14]; norm_num),
    if_neg (by rw [gap_circ14, avg_circ14]; norm_num)]
  rw [hclamp, ucx_circ14, ucy_circ14, avg_circ14]
  congr 1
  · rw [round_eq]
    norm_num
  · rw [messageOf, if_neg (by norm_num), if_pos (by norm_num)]

/-- Counterexample to C9 as stated: two inputs (the same perfect stroke
with nuclei at distance 24.5 and 25.5 from its center) produce the same
returned integer score 98 but different messages, because the message
tiers are evaluated on the clamped score before rounding (98.2 vs 97.8),
not on the returned rounded score. -/
theorem claim9_message_function_of_score_counterexample :
    (analyzeCircle circ14 ⟨24.5, 0⟩).score = (analyzeCircle circ14 ⟨25.5, 0⟩).score ∧
    (analyzeCircle circ14 ⟨24.5, 0⟩).message ≠ (analyzeCircle circ14 ⟨25.5, 0⟩).message := by
  rw [result_circ14_inner, result_circ14_outer]
  exact ⟨rfl, by simp⟩

/-- Claim C9, amended: for non-rejected results the message is a pure
deterministic function of the clamped score before rounding (not of the
returned rounded integer): two inputs whose results both have
`isTooSmall = false` and `notClosed = false` and whose clamped unrounded
scores agree receive the same message. -/
theorem claim9_message_function_of_score_amended
    (p1 : List Point) (n1 : Point) (p2 : List Point) (n2 : Point)
    (h1s : (analyzeCircle p1 n1).isTooSmall = false)
    (h1c : (analyzeCircle p1 n1).notClosed = false)
    (h2s : (analyzeCircle p2 n2).isTooSmall = false)
    (h2c : (analyzeCircle p2 n2).notClosed = false)
    (h : clampedScore p1 n1 = clampedScore p2 n2) :
    (analyzeCircle p1 n1).message = (analyzeCircle p2 n2).message := by
  have key : ∀ (p : List Point) (n : Point),
      (analyzeCircle p n).isTooSmall = false → (analyzeCircle p n).notClosed = false →
      (analyzeCircle p n).message = messageOf (clampedScore p n) := by
    intro p n hs hc
    unfold analyzeCircle at hs hc ⊢
    split_ifs at hs hc ⊢
    simp_all
  rw [key p1 n1 h1s h1c, key p2 n2 h2s h2c, h]

/-- Witness for the amended C9, applying it to the non-rejected result of
`circ14` with nucleus (24.5, 0) on both sides. -/
theorem claim9_message_function_of_score_amended_witness :
    ((analyzeCircle circ14 ⟨24.5, 0⟩).isTooSmall = false ∧
      (analyzeCircle circ14 ⟨24.5, 0⟩).notClosed = false) ∧
    (analyzeCircle circ14 ⟨24.5, 0⟩).message = (analyzeCircle circ14 ⟨24.5, 0⟩).message :=
  ⟨⟨by rw [result_circ14_inner], by rw [result_circ14_inner]⟩,
   claim9_message_function_of_score_amended circ14 ⟨24.5, 0⟩ circ14 ⟨24.5, 0⟩
     (by rw [result_circ14_inner]) (by rw [result_circ14_inner])
     (by rw [result_circ14_inner]) (by rw [result_circ14_inner]) rfl⟩

/-! Input for C7: 20 points evenly sampled on the circle of radius 200
centered at (500, 500) — the k-th point at angle k * (π/10) = 2πk/20 for
k = 0, ..., 19 — with point 0 repeated as the final (21st) sample. -/

/-- Sample on the radius-200 circle about (500, 500) at angle θ. -/
noncomputable def samplePt (θ : ℝ) : Point :=
  ⟨500 + 200 * Real.cos θ, 500 + 200 * Real.sin θ⟩

/-- The C7 stroke: samples at angles k * (π/10), k = 0..19, then point 0
again. -/
noncomputable def circlePts : List Point :=
  [samplePt (0 * (π / 10)), samplePt (1 * (π / 10)), samplePt (2 * (π / 10)),
   samplePt (3 * (π / 10)), samplePt (4 * (π / 10)), samplePt (5 * (π / 10)),
   samplePt (6 * (π / 10)), samplePt (7 * (π / 10)), samplePt (8 * (π / 10)),
   samplePt (9 * (π / 10)), samplePt (10 * (π / 10)), samplePt (11 * (π / 10)),
   samplePt (12 * (π / 10)), samplePt (13 * (π / 10)), samplePt (14 * (π / 10)),
   samplePt (15 * (π / 10)), samplePt (16 * (π / 10)), samplePt (17 * (π / 10)),
   samplePt (18 * (π / 10)), samplePt (19 * (π / 10)), samplePt (0 * (π / 10))]

theorem cos_pi_add' (x : ℝ) : Real.cos (π + x) = -Real.cos x := by
  simp [Real.cos_add]

theorem sin_pi_add' (x : ℝ) : Real.sin (π + x) = -Real.sin x := by
  simp [Real.sin_add]

theorem length_circlePts : circlePts.length = 21 := rfl

theorem sumX_circlePts : sumX circlePts = 10700 := by
  rw [sumX_eq]
  simp only [circlePts, List.map_cons, List.map_nil, List.sum_cons, List.sum_nil, samplePt]
  rw [show (10 : ℝ) * (π / 10) = π + 0 * (π / 10) by ring,
    show (11 : ℝ) * (π / 10) = π + 1 * (π / 10) by ring,
    show (12 : ℝ) * (π / 10) = π + 2 * (π / 10) by ring,
    show (13 : ℝ) * (π / 10) = π + 3 * (π / 10) by ring,
    show (14 : ℝ) * (π / 10) = π + 4 * (π / 10) by ring,
    show (15 : ℝ) * (π / 10) = π + 5 * (π / 10) by ring,
    show (16 : ℝ) * (π / 10) = π + 6 * (π / 10) by ring,
    show (17 : ℝ) * (π / 10) = π + 7 * (π / 10) by ring,
    show (18 : ℝ) * (π / 10) = π + 8 * (π / 10) by ring,
    show (19 : ℝ) * (π / 10) = π + 9 * (π / 10) by ring]
  simp only [cos_pi_add', zero_mul, Real.cos_zero]
  ring

theorem sumY_circlePts : sumY circlePts = 10500 := by
  rw [sumY_eq]
  simp only [circlePts, List.map_cons, List.map_nil, List.sum_cons, List.sum_nil, samplePt]
  rw [show (10 : ℝ) * (π / 10) = π + 0 * (π / 10) by ring,
    show (11 : ℝ) * (π / 10) = π + 1 * (π / 10) by ring,
    show (12 : ℝ) * (π / 10) = π + 2 * (π / 10) by ring,
    show (13 : ℝ) * (π / 10) = π + 3 * (π / 10) by ring,
    show (14 : ℝ) * (π / 10) = π + 4 * (π / 10) by ring,
    show (15 : ℝ) * (π / 10) = π + 5 * (π / 10) by ring,
    show (16 : ℝ) * (π / 10) = π + 6 * (π / 10) by ring,
    show (17 : ℝ) * (π / 10) = π + 7 * (π / 10) by ring,
    show (18 : ℝ) * (π / 10) = π + 8 * (π / 10) by ring,
    show (19 : ℝ) * (π / 10) = π + 9 * (π / 10) by ring]
  simp only [sin_pi_add', zero_mul, Real.sin_zero]
  ring

theorem ucx_circlePts : userCenterX circlePts = 10700 / 21 := by
  rw [userCenterX, sumX_circlePts, length_circlePts]
  norm_num

theorem ucy_circlePts : userCenterY circlePts = 500 := by
  rw [userCenterY, sumY_circlePts, length_circlePts]
  norm_num

theorem sqrt5_bounds : (2.2360 : ℝ) ≤ Real.sqrt 5 ∧ Real.sqrt 5 ≤ 2.2361 :=
  ⟨Real.le_sqrt_of_sq_le (by norm_num),
   Real.sqrt_le_iff.mpr ⟨by norm_num, by norm_num⟩⟩

theorem sq_sqrt5 : Real.sqrt 5 ^ 2 = 5 := Real.sq_sqrt (by norm_num)

theorem cosA2 : Real.cos (2 * (π / 10)) = (1 + Real.sqrt 5) / 4 := by
  rw [show (2 : ℝ) * (π / 10) = π / 5 by ring, Real.cos_pi_div_five]

theorem cosA4 : Real.cos (4 * (π / 10)) = (Real.sqrt 5 - 1) / 4 := by
  rw [show (4 : ℝ) * (π / 10) = 2 * (π / 5) by ring, Real.cos_two_mul,
    Real.cos_pi_div_five]
  linear_combination (1 / 8 : ℝ) * sq_sqrt5

theorem sinA1 : Real.sin (1 * (π / 10)) = (Real.sqrt 5 - 1) / 4 := by
  rw [← Real.cos_pi_div_two_sub, show π / 2 - 1 * (π / 10) = 4 * (π / 10) by ring, cosA4]

theorem cosA1_sq : Real.cos (1 * (π / 10)) ^ 2 = (10 + 2 * Real.sqrt 5) / 16 := by
  have hp := Real.sin_sq_add_cos_sq (1 * (π / 10))
  rw [sinA1] at hp
  linear_combination hp - (1 / 16 : ℝ) * sq_sqrt5

theorem cosA1_nonneg : 0 ≤ Real.cos (1 * (π / 10)) := by
  apply Real.cos_nonneg_of_mem_Icc
  constructor
  · have := Real.pi_pos
    linarith
  · have := Real.pi_pos
    linarith

theorem cosA1_bounds :
    (0.951 : ℝ) ≤ Real.cos (1 * (π / 10)) ∧ Real.cos (1 * (π / 10)) ≤ 0.9511 := by
  have heq : Real.cos (1 * (π / 10)) = Real.sqrt ((10 + 2 * Real.sqrt 5) / 16) := by
    rw [← cosA1_sq, Real.sqrt_sq cosA1_nonneg]
  rw [heq]
  constructor
  · apply Real.le_sqrt_of_sq_le
    nlinarith [sqrt5_bounds.1]
  · apply Real.sqrt_le_iff.mpr
    constructor
    · norm_num
    · nlinarith [sqrt5_bounds.2]

theorem cosA3_eq_sin : Real.cos (3 * (π / 10)) = Real.sin (2 * (π / 10)) := by
  rw [← Real.sin_pi_div_two_sub, show π / 2 - 3 * (π / 10) = 2 * (π / 10) by ring]

theorem cosA3_sq : Real.cos (3 * (π / 10)) ^ 2 = (10 - 2 * Real.sqrt 5) / 16 := by
  have hp := Real.sin_sq_add_cos_sq (2 * (π / 10))
  rw [cosA2] at hp
  rw [cosA3_eq_sin]
  linear_combination hp - (1 / 16 : ℝ) * sq_sqrt5

theorem cosA3_nonneg : 0 ≤ Real.cos (3 * (π / 10)) := by
  apply Real.cos_nonneg_of_mem_Icc
  constructor
  · have := Real.pi_pos
    linarith
  · have := Real.pi_pos
    linarith

theorem cosA3_bounds :
    (0.5877 : ℝ) ≤ Real.cos (3 * (π / 10)) ∧ Real.cos (3 * (π / 10)) ≤ 0.5878 := by
  have heq : Real.cos (3 * (π / 10)) = Real.sqrt ((10 - 2 * Real.sqrt 5) / 16) := by
    rw [← cosA3_sq, Real.sqrt_sq cosA3_nonneg]
  rw [heq]
  constructor
  · apply Real.le_sqrt_of_sq_le
    nlinarith [sqrt5_bounds.2]
  · apply Real.sqrt_le_iff.mpr
    constructor
    · norm_num
    · nlinarith [sqrt5_bounds.1]

theorem cosb0 :
    (1 : ℝ) ≤ Real.cos (0 * (π / 10)) ∧ Real.cos (0 * (π / 10)) ≤ 1 := by
  norm_num [Real.cos_zero]

theorem cosb1 :
    (0.951 : ℝ) ≤ Real.cos (1 * (π / 10)) ∧ Real.cos (1 * (π / 10)) ≤ 0.9511 := by
  exact cosA1_bounds

theorem cosb2 :
    (0.809 : ℝ) ≤ Real.cos (2 * (π / 10)) ∧ Real.cos (2 * (π / 10)) ≤ 0.80903 := by
  rw [cosA2]
  constructor <;> linarith [sqrt5_bounds.1, sqrt5_bounds.2]

theorem cosb3 :
    (0.5877 : ℝ) ≤ Real.cos (3 * (π / 10)) ∧ Real.cos (3 * (π / 10)) ≤ 0.5878 := by
  exact cosA3_bounds

theorem cosb4 :
    (0.309 : ℝ) ≤ Real.cos (4 * (π / 10)) ∧ Real.cos (4 * (π / 10)) ≤ 0.30903 := by
  rw [cosA4]
  constructor <;> linarith [sqrt5_bounds.1, sqrt5_bounds.2]

theorem cosb5 :
    (0 : ℝ) ≤ Real.cos (5 * (π / 10)) ∧ Real.cos (5 * (π / 10)) ≤ 0 := by
  rw [show (5 : ℝ) * (π / 10) = π / 2 by ring, Real.cos_pi_div_two]
  norm_num

theorem cosb6 :
    (-0.30903 : ℝ) ≤ Real.cos (6 * (π / 10)) ∧ Real.cos (6 * (π / 10)) ≤ -0.309 := by
  rw [show (6 : ℝ) * (π / 10) = π - 4 * (π / 10) by ring, Real.cos_pi_sub, cosA4]
  constructor <;> linarith [sqrt5_bounds.1, sqrt5_bounds.2]

theorem cosb7 :
    (-0.5878 : ℝ) ≤ Real.cos (7 * (π / 10)) ∧ Real.cos (7 * (π / 10)) ≤ -0.5877 := by
  rw [show (7 : ℝ) * (π / 10) = π - 3 * (π / 10) by ring, Real.cos_pi_sub]
  constructor <;> linarith [cosA3_bounds.1, cosA3_bounds.2]

theorem cosb8 :
    (-0.80903 : ℝ) ≤ Real.cos (8 * (π / 10)) ∧ Real.cos (8 * (π / 10)) ≤ -0.809 := by
  rw [show (8 : ℝ) * (π / 10) = π - 2 * (π / 10) by ring, Real.cos_pi_sub, cosA2]
  constructor <;> linarith [sqrt5_bounds.1, sqrt5_bounds.2]

theorem cosb9 :
    (-0.9511 : ℝ) ≤ Real.cos (9 * (π / 10)) ∧ Real.cos (9 * (π / 10)) ≤ -0.951 := by
  rw [show (9 : ℝ) * (π / 10) = π - 1 * (π / 10) by ring, Real.cos_pi_sub]
  constructor <;> linarith [cosA1_bounds.1, cosA1_bounds.2]

theorem cosb10 :
    (-1 : ℝ) ≤ Real.cos (10 * (π / 10)) ∧ Real.cos (10 * (π / 10)) ≤ -1 := by
  rw [show (10 : ℝ) * (π / 10) = π by ring, Real.cos_pi]
  norm_num

theorem cosb11 :
    (-0.9511 : ℝ) ≤ Real.cos (11 * (π / 10)) ∧ Real.cos (11 * (π / 10)) ≤ -0.951 := by
  rw [show (11 : ℝ) * (π / 10) = π + 1 * (π / 10) by ring, cos_pi_add']
  constructor <;> linarith [cosA1_bounds.1, cosA1_bounds.2]

theorem cosb12 :
    (-0.80903 : ℝ) ≤ Real.cos (12 * (π / 10)) ∧ Real.cos (12 * (π / 10)) ≤ -0.809 := by
  rw [show (12 : ℝ) * (π / 10) = π + 2 * (π / 10) by ring, cos_pi_add', cosA2]
  constructor <;> linarith [sqrt5_bounds.1, sqrt5_bounds.2]

theorem cosb13 :
    (-0.5878 : ℝ) ≤ Real.cos (13 * (π / 10)) ∧ Real.cos (13 * (π / 10)) ≤ -0.5877 := by
  rw [show (13 : ℝ) * (π / 10) = π + 3 * (π / 10) by ring, cos_pi_add']
  constructor <;> linarith [cosA3_bounds.1, cosA3_bounds.2]

theorem cosb14 :
    (-0.30903 : ℝ) ≤ Real.cos (14 * (π / 10)) ∧ Real.cos (14 * (π / 10)) ≤ -0.309 := by
  rw [show (14 : ℝ) * (π / 10) = π + 4 * (π / 10) by ring, cos_pi_add', cosA4]
  constructor <;> linarith [sqrt5_bounds.1, sqrt5_bounds.2]

theorem cosb15 :
    (0 : ℝ) ≤ Real.cos (15 * (π / 10)) ∧ Real.cos (15 * (π / 10)) ≤ 0 := by
  rw [show (15 : ℝ) * (π / 10) = π + 5 * (π / 10) by ring, cos_pi_add',
    show (5 : ℝ) * (π / 10) = π / 2 by ring, Real.cos_pi_div_two]
  norm_num

theorem cosb16 :
    (0.309 : ℝ) ≤ Real.cos (16 * (π / 10)) ∧ Real.cos (16 * (π / 10)) ≤ 0.30903 := by
  rw [show (16 : ℝ) * (π / 10) = π + 6 * (π / 10) by ring, cos_pi_add',
    show (6 : ℝ) * (π / 10) = π - 4 * (π / 10) by ring, Real.cos_pi_sub, cosA4]
  constructor <;> linarith [sqrt5_bounds.1, sqrt5_bounds.2]

theorem cosb17 :
    (0.5877 : ℝ) ≤ Real.cos (17 * (π / 10)) ∧ Real.cos (17 * (π / 10)) ≤ 0.5878 := by
  rw [show (17 : ℝ) * (π / 10) = π + 7 * (π / 10) by ring, cos_pi_add',
    show (7 : ℝ) * (π / 10) = π - 3 * (π / 10) by ring, Real.cos_pi_sub]
  constructor <;> linarith [cosA3_bounds.1, cosA3_bounds.2]

theorem cosb18 :
    (0.809 : ℝ) ≤ Real.cos (18 * (π / 10)) ∧ Real.cos (18 * (π / 10)) ≤ 0.80903 := by
  rw [show (18 : ℝ) * (π / 10) = π + 8 * (π / 10) by ring, cos_pi_add',
    show (8 : ℝ) * (π / 10) = π - 2 * (π / 10) by ring, Real.cos_pi_sub, cosA2]
  constructor <;> linarith [sqrt5_bounds.1, sqrt5_bounds.2]

theorem cosb19 :
    (0.951 : ℝ) ≤ Real.cos (19 * (π / 10)) ∧ Real.cos (19 * (π / 10)) ≤ 0.9511 := by
  rw [show (19 : ℝ) * (π / 10) = π + 9 * (π / 10) by ring, cos_pi_add',
    show (9 : ℝ) * (π / 10) = π - 1 * (π / 10) by ring, Real.cos_pi_sub]
  constructor <;> linarith [cosA1_bounds.1, cosA1_bounds.2]

theorem sqrtExprBounds {c cl cu el eu : ℝ} (h1 : cl ≤ c) (h2 : c ≤ cu)
    (h4 : el ^ 2 ≤ 442 - 42 * cu) (h5 : 442 - 42 * cl ≤ eu ^ 2) (h6 : 0 ≤ eu) :
    el ≤ Real.sqrt (442 - 42 * c) ∧ Real.sqrt (442 - 42 * c) ≤ eu :=
  ⟨Real.le_sqrt_of_sq_le (by nlinarith), Real.sqrt_le_iff.mpr ⟨h6, by nlinarith⟩⟩

theorem eb0 :
    (20 : ℝ) ≤ Real.sqrt (442 - 42 * Real.cos (0 * (π / 10))) ∧
      Real.sqrt (442 - 42 * Real.cos (0 * (π / 10))) ≤ 20 :=
  sqrtExprBounds cosb0.1 cosb0.2 (by norm_num) (by norm_num) (by norm_num)

theorem eb1 :
    (20.051 : ℝ) ≤ Real.sqrt (442 - 42 * Real.cos (1 * (π / 10))) ∧
      Real.sqrt (442 - 42 * Real.cos (1 * (π / 10))) ≤ 20.0515 :=
  sqrtExprBounds cosb1.1 cosb1.2 (by norm_num) (by norm_num) (by norm_num)

theorem eb2 :
    (20.199 : ℝ) ≤ Real.sqrt (442 - 42 * Real.cos (2 * (π / 10))) ∧
      Real.sqrt (442 - 42 * Real.cos (2 * (π / 10))) ≤ 20.2 :=
  sqrtExprBounds cosb2.1 cosb2.2 (by norm_num) (by norm_num) (by norm_num)

theorem eb3 :
    (20.428 : ℝ) ≤ Real.sqrt (442 - 42 * Real.cos (3 * (π / 10))) ∧
      Real.sqrt (442 - 42 * Real.cos (3 * (π / 10))) ≤ 20.4284 :=
  sqrtExprBounds cosb3.1 cosb3.2 (by norm_num) (by norm_num) (by norm_num)

theorem eb4 :
    (20.7128 : ℝ) ≤ Real.sqrt (442 - 42 * Real.cos (4 * (π / 10))) ∧
      Real.sqrt (442 - 42 * Real.cos (4 * (π / 10))) ≤ 20.713 :=
  sqrtExprBounds cosb4.1 cosb4.2 (by norm_num) (by norm_num) (by norm_num)

theorem eb5 :
    (21.023 : ℝ) ≤ Real.sqrt (442 - 42 * Real.cos (5 * (π / 10))) ∧
      Real.sqrt (442 - 42 * Real.cos (5 * (π / 10))) ≤ 21.024 :=
  sqrtExprBounds cosb5.1 cosb5.2 (by norm_num) (by norm_num) (by norm_num)

theorem eb6 :
    (21.33 : ℝ) ≤ Real.sqrt (442 - 42 * Real.cos (6 * (π / 10))) ∧
      Real.sqrt (442 - 42 * Real.cos (6 * (π / 10))) ≤ 21.3303 :=
  sqrtExprBounds cosb6.1 cosb6.2 (by norm_num) (by norm_num) (by norm_num)

theorem eb7 :
    (21.6025 : ℝ) ≤ Real.sqrt (442 - 42 * Real.cos (7 * (π / 10))) ∧
      Real.sqrt (442 - 42 * Real.cos (7 * (π / 10))) ≤ 21.6031 :=
  sqrtExprBounds cosb7.1 cosb7.2 (by norm_num) (by norm_num) (by norm_num)

theorem eb8 :
    (21.8168 : ℝ) ≤ Real.sqrt (442 - 42 * Real.cos (8 * (π / 10))) ∧
      Real.sqrt (442 - 42 * Real.cos (8 * (π / 10))) ≤ 21.8172 :=
  sqrtExprBounds cosb8.1 cosb8.2 (by norm_num) (by norm_num) (by norm_num)

theorem eb9 :
    (21.953 : ℝ) ≤ Real.sqrt (442 - 42 * Real.cos (9 * (π / 10))) ∧
      Real.sqrt (442 - 42 * Real.cos (9 * (π / 10))) ≤ 21.9534 :=
  sqrtExprBounds cosb9.1 cosb9.2 (by norm_num) (by norm_num) (by norm_num)

theorem eb10 :
    (22 : ℝ) ≤ Real.sqrt (442 - 42 * Real.cos (10 * (π / 10))) ∧
      Real.sqrt (442 - 42 * Real.cos (10 * (π / 10))) ≤ 22 :=
  sqrtExprBounds cosb10.1 cosb10.2 (by norm_num) (by norm_num) (by norm_num)

theorem eb11 :
    (21.953 : ℝ) ≤ Real.sqrt (442 - 42 * Real.cos (11 * (π / 10))) ∧
      Real.sqrt (442 - 42 * Real.cos (11 * (π / 10))) ≤ 21.9534 :=
  sqrtExprBounds cosb11.1 cosb11.2 (by norm_num) (by norm_num) (by norm_num)

theorem eb12 :
    (21.8168 : ℝ) ≤ Real.sqrt (442 - 42 * Real.cos (12 * (π / 10))) ∧
      Real.sqrt (442 - 42 * Real.cos (12 * (π / 10))) ≤ 21.8172 :=
  sqrtExprBounds cosb12.1 cosb12.2 (by norm_num) (by norm_num) (by norm_num)

theorem eb13 :
    (21.6025 : ℝ) ≤ Real.sqrt (442 - 42 * Real.cos (13 * (π / 10))) ∧
      Real.sqrt (442 - 42 * Real.cos (13 * (π / 10))) ≤ 21.6031 :=
  sqrtExprBounds cosb13.1 cosb13.2 (by norm_num) (by norm_num) (by norm_num)

theorem eb14 :
    (21.33 : ℝ) ≤ Real.sqrt (442 - 42 * Real.cos (14 * (π / 10))) ∧
      Real.sqrt (442 - 42 * Real.cos (14 * (π / 10))) ≤ 21.3303 :=
  sqrtExprBounds cosb14.1 cosb14.2 (by norm_num) (by norm_num) (by norm_num)

theorem eb15 :
    (21.023 : ℝ) ≤ Real.sqrt (442 - 42 * Real.cos (15 * (π / 10))) ∧
      Real.sqrt (442 - 42 * Real.cos (15 * (π / 10))) ≤ 21.024 :=
  sqrtExprBounds cosb15.1 cosb15.2 (by norm_num) (by norm_num) (by norm_num)

theorem eb16 :
    (20.7128 : ℝ) ≤ Real.sqrt (442 - 42 * Real.cos (16 * (π / 10))) ∧
      Real.sqrt (442 - 42 * Real.cos (16 * (π / 10))) ≤ 20.713 :=
  sqrtExprBounds cosb16.1 cosb16.2 (by norm_num) (by norm_num) (by norm_num)

theorem eb17 :
    (20.428 : ℝ) ≤ Real.sqrt (442 - 42 * Real.cos (17 * (π / 10))) ∧
      Real.sqrt (442 - 42 * Real.cos (17 * (π / 10))) ≤ 20.4284 :=
  sqrtExprBounds cosb17.1 cosb17.2 (by norm_num) (by norm_num) (by norm_num)

theorem eb18 :
    (20.199 : ℝ) ≤ Real.sqrt (442 - 42 * Real.cos (18 * (π / 10))) ∧
      Real.sqrt (442 - 42 * Real.cos (18 * (π / 10))) ≤ 20.2 :=
  sqrtExprBounds cosb18.1 cosb18.2 (by norm_num) (by norm_num) (by norm_num)

theorem eb19 :
    (20.051 : ℝ) ≤ Real.sqrt (442 - 42 * Real.cos (19 * (π / 10))) ∧
      Real.sqrt (442 - 42 * Real.cos (19 * (π / 10))) ≤ 20.0515 :=
  sqrtExprBounds cosb19.1 cosb19.2 (by norm_num) (by norm_num) (by norm_num)

/-- Distance of the sample at angle θ from the fitted centroid
(10700/21, 500), reduced to a single square root in cos θ via the
Pythagorean identity. -/
theorem dist_sample (θ : ℝ) :
    Real.sqrt ((500 + 200 * Real.cos θ - 10700 / 21) * (500 + 200 * Real.cos θ - 10700 / 21) +
      (500 + 200 * Real.sin θ - 500) * (500 + 200 * Real.sin θ - 500)) =
    200 / 21 * Real.sqrt (442 - 42 * Real.cos θ) := by
  have hp := Real.sin_sq_add_cos_sq θ
  have key : (500 + 200 * Real.cos θ - 10700 / 21) * (500 + 200 * Real.cos θ - 10700 / 21) +
      (500 + 200 * Real.sin θ - 500) * (500 + 200 * Real.sin θ - 500) =
      (200 / 21) ^ 2 * (442 - 42 * Real.cos θ) := by
    linear_combination (40000 : ℝ) * hp
  rw [key, Real.sqrt_mul (by positivity) _, Real.sqrt_sq (by positivity)]

theorem distances_circlePts : distances circlePts =
    [200 / 21 * Real.sqrt (442 - 42 * Real.cos (0 * (π / 10))),
     200 / 21 * Real.sqrt (442 - 42 * Real.cos (1 * (π / 10))),
     200 / 21 * Real.sqrt (442 - 42 * Real.cos (2 * (π / 10))),
     200 / 21 * Real.sqrt (442 - 42 * Real.cos (3 * (π / 10))),
     200 / 21 * Real.sqrt (442 - 42 * Real.cos (4 * (π / 10))),
     200 / 21 * Real.sqrt (442 - 42 * Real.cos (5 * (π / 10))),
     200 / 21 * Real.sqrt (442 - 42 * Real.cos (6 * (π / 10))),
     200 / 21 * Real.sqrt (442 - 42 * Real.cos (7 * (π / 10))),
     200 / 21 * Real.sqrt (442 - 42 * Real.cos (8 * (π / 10))),
     200 / 21 * Real.sqrt (442 - 42 * Real.cos (9 * (π / 10))),
     200 / 21 * Real.sqrt (442 - 42 * Real.cos (10 * (π / 10))),
     200 / 21 * Real.sqrt (442 - 42 * Real.cos (11 * (π / 10))),
     200 / 21 * Real.sqrt (442 - 42 * Real.cos (12 * (π / 10))),
     200 / 21 * Real.sqrt (442 - 42 * Real.cos (13 * (π / 10))),
     200 / 21 * Real.sqrt (442 - 42 * Real.cos (14 * (π / 10))),
     200 / 21 * Real.sqrt (442 - 42 * Real.cos (15 * (π / 10))),
     200 / 21 * Real.sqrt (442 - 42 * Real.cos (16 * (π / 10))),
     200 / 21 * Real.sqrt (442 - 42 * Real.cos (17 * (π / 10))),
     200 / 21 * Real.sqrt (442 - 42 * Real.cos (18 * (π / 10))),
     200 / 21 * Real.sqrt (442 - 42 * Real.cos (19 * (π / 10))),
     200 / 21 * Real.sqrt (442 - 42 * Real.cos (0 * (π / 10)))] := by
  simp only [distances, ucx_circlePts, ucy_circlePts]
  simp only [circlePts, List.map_cons, List.map_nil, samplePt]
  simp only [dist_sample]

theorem avg_circlePts_bounds :
    (199.6517 : ℝ) ≤ avgRadius circlePts ∧ avgRadius circlePts ≤ 199.6562 := by
  rw [avgRadius_eq, distances_circlePts, length_circlePts]
  simp only [List.sum_cons, List.sum_nil]
  push_cast
  constructor
  · rw [le_div_iff₀ (by norm_num : (0 : ℝ) < 21)]
    linarith [eb0.1, eb1.1, eb2.1, eb3.1, eb4.1, eb5.1, eb6.1, eb7.1, eb8.1, eb9.1, eb10.1, eb11.1, eb12.1, eb13.1, eb14.1, eb15.1, eb16.1, eb17.1, eb18.1, eb19.1]
  · rw [div_le_iff₀ (by norm_num : (0 : ℝ) < 21)]
    linarith [eb0.2, eb1.2, eb2.2, eb3.2, eb4.2, eb5.2, eb6.2, eb7.2, eb8.2, eb9.2, eb10.2, eb11.2, eb12.2, eb13.2, eb14.2, eb15.2, eb16.2, eb17.2, eb18.2, eb19.2]

theorem totalDeviation_nonneg (points : List Point) : 0 ≤ totalDeviation points := by
  rw [totalDeviation_eq]
  apply List.sum_nonneg
  intro x hx
  rcases List.mem_map.mp hx with ⟨d, _, rfl⟩
  exact abs_nonneg _

/-- Per-sample deviation bound, stated over abstract reals so that the
linear arithmetic never touches the large concrete terms. -/
theorem abs_term_bound {e a el eu m : ℝ} (h1 : el ≤ e) (h2 : e ≤ eu)
    (h3 : 199.6517 ≤ a) (h4 : a ≤ 199.6562)
    (h5 : 200 / 21 * eu - 199.6517 ≤ 200 / 21 * m)
    (h6 : 199.6562 - 200 / 21 * el ≤ 200 / 21 * m) :
    |200 / 21 * e - a| ≤ 200 / 21 * m := by
  rw [abs_le]
  constructor <;> nlinarith

theorem totdev_circlePts : totalDeviation circlePts ≤ 200 / 21 * 13.717 := by
  have havg := avg_circlePts_bounds
  have hm0 : |200 / 21 * Real.sqrt (442 - 42 * Real.cos (0 * (π / 10))) -
      avgRadius circlePts| ≤ 200 / 21 * 0.964 :=
    abs_term_bound eb0.1 eb0.2 havg.1 havg.2 (by norm_num) (by norm_num)
  have hm1 : |200 / 21 * Real.sqrt (442 - 42 * Real.cos (1 * (π / 10))) -
      avgRadius circlePts| ≤ 200 / 21 * 0.913 :=
    abs_term_bound eb1.1 eb1.2 havg.1 havg.2 (by norm_num) (by norm_num)
  have hm2 : |200 / 21 * Real.sqrt (442 - 42 * Real.cos (2 * (π / 10))) -
      avgRadius circlePts| ≤ 200 / 21 * 0.765 :=
    abs_term_bound eb2.1 eb2.2 havg.1 havg.2 (by norm_num) (by norm_num)
  have hm3 : |200 / 21 * Real.sqrt (442 - 42 * Real.cos (3 * (π / 10))) -
      avgRadius circlePts| ≤ 200 / 21 * 0.536 :=
    abs_term_bound eb3.1 eb3.2 havg.1 havg.2 (by norm_num) (by norm_num)
  have hm4 : |200 / 21 * Real.sqrt (442 - 42 * Real.cos (4 * (π / 10))) -
      avgRadius circlePts| ≤ 200 / 21 * 0.2512 :=
    abs_term_bound eb4.1 eb4.2 havg.1 havg.2 (by norm_num) (by norm_num)
  have hm5 : |200 / 21 * Real.sqrt (442 - 42 * Real.cos (5 * (π / 10))) -
      avgRadius circlePts| ≤ 200 / 21 * 0.0606 :=
    abs_term_bound eb5.1 eb5.2 havg.1 havg.2 (by norm_num) (by norm_num)
  have hm6 : |200 / 21 * Real.sqrt (442 - 42 * Real.cos (6 * (π / 10))) -
      avgRadius circlePts| ≤ 200 / 21 * 0.3669 :=
    abs_term_bound eb6.1 eb6.2 havg.1 havg.2 (by norm_num) (by norm_num)
  have hm7 : |200 / 21 * Real.sqrt (442 - 42 * Real.cos (7 * (π / 10))) -
      avgRadius circlePts| ≤ 200 / 21 * 0.6397 :=
    abs_term_bound eb7.1 eb7.2 havg.1 havg.2 (by norm_num) (by norm_num)
  have hm8 : |200 / 21 * Real.sqrt (442 - 42 * Real.cos (8 * (π / 10))) -
      avgRadius circlePts| ≤ 200 / 21 * 0.8538 :=
    abs_term_bound eb8.1 eb8.2 havg.1 havg.2 (by norm_num) (by norm_num)
  have hm9 : |200 / 21 * Real.sqrt (442 - 42 * Real.cos (9 * (π / 10))) -
      avgRadius circlePts| ≤ 200 / 21 * 0.99 :=
    abs_term_bound eb9.1 eb9.2 havg.1 havg.2 (by norm_num) (by norm_num)
  have hm10 : |200 / 21 * Real.sqrt (442 - 42 * Real.cos (10 * (π / 10))) -
      avgRadius circlePts| ≤ 200 / 21 * 1.0366 :=
    abs_term_bound eb10.1 eb10.2 havg.1 havg.2 (by norm_num) (by norm_num)
  have hm11 : |200 / 21 * Real.sqrt (442 - 42 * Real.cos (11 * (π / 10))) -
      avgRadius circlePts| ≤ 200 / 21 * 0.99 :=
    abs_term_bound eb11.1 eb11.2 havg.1 havg.2 (by norm_num) (by norm_num)
  have hm12 : |200 / 21 * Real.sqrt (442 - 42 * Real.cos (12 * (π / 10))) -
      avgRadius circlePts| ≤ 200 / 21 * 0.8538 :=
    abs_term_bound eb12.1 eb12.2 havg.1 havg.2 (by norm_num) (by norm_num)
  have hm13 : |200 / 21 * Real.sqrt (442 - 42 * Real.cos (13 * (π / 10))) -
      avgRadius circlePts| ≤ 200 / 21 * 0.6397 :=
    abs_term_bound eb13.1 eb13.2 havg.1 havg.2 (by norm_num) (by norm_num)
  have hm14 : |200 / 21 * Real.sqrt (442 - 42 * Real.cos (14 * (π / 10))) -
      avgRadius circlePts| ≤ 200 / 21 * 0.3669 :=
    abs_term_bound eb14.1 eb14.2 havg.1 havg.2 (by norm_num) (by norm_num)
  have hm15 : |200 / 21 * Real.sqrt (442 - 42 * Real.cos (15 * (π / 10))) -
      avgRadius circlePts| ≤ 200 / 21 * 0.0606 :=
    abs_term_bound eb15.1 eb15.2 havg.1 havg.2 (by norm_num) (by norm_num)
  have hm16 : |200 / 21 * Real.sqrt (442 - 42 * Real.cos (16 * (π / 10))) -
      avgRadius circlePts| ≤ 200 / 21 * 0.2512 :=
    abs_term_bound eb16.1 eb16.2 havg.1 havg.2 (by norm_num) (by norm_num)
  have hm17 : |200 / 21 * Real.sqrt (442 - 42 * Real.cos (17 * (π / 10))) -
      avgRadius circlePts| ≤ 200 / 21 * 0.536 :=
    abs_term_bound eb17.1 eb17.2 havg.1 havg.2 (by norm_num) (by norm_num)
  have hm18 : |200 / 21 * Real.sqrt (442 - 42 * Real.cos (18 * (π / 10))) -
      avgRadius circlePts| ≤ 200 / 21 * 0.765 :=
    abs_term_bound eb18.1 eb18.2 havg.1 havg.2 (by norm_num) (by norm_num)
  have hm19 : |200 / 21 * Real.sqrt (442 - 42 * Real.cos (19 * (π / 10))) -
      avgRadius circlePts| ≤ 200 / 21 * 0.913 :=
    abs_term_bound eb19.1 eb19.2 havg.1 havg.2 (by norm_num) (by norm_num)
  rw [totalDeviation_eq, distances_circlePts]
  simp only [List.map_cons, List.map_nil, List.sum_cons, List.sum_nil]
  set A := avgRadius circlePts with hA
  linarith [hm0, hm1, hm2, hm3, hm4, hm5, hm6, hm7, hm8, hm9, hm10, hm11, hm12, hm13, hm14, hm15, hm16, hm17, hm18, hm19]

theorem meandev_circlePts : meanDeviation circlePts ≤ 6.2209 := by
  rw [meanDeviation]
  rw [show ((distances circlePts).length : ℝ) = 21 by
    rw [distances_circlePts]
    norm_num]
  rw [div_le_iff₀ (by norm_num : (0 : ℝ) < 21)]
  exact le_trans totdev_circlePts (by norm_num)

theorem meandev_circlePts_nonneg : 0 ≤ meanDeviation circlePts := by
  rw [meanDeviation]
  exact div_nonneg (totalDeviation_nonneg circlePts) (Nat.cast_nonneg _)

theorem div_bound_rd {m a : ℝ} (hm : m ≤ 6.2209) (ha : 199.6517 ≤ a) :
    m / a ≤ 0.0312 := by
  have hpos : (0 : ℝ) < a := by linarith
  rw [div_le_iff₀ hpos]
  nlinarith

theorem div_bound_ce {a : ℝ} (ha : 199.6517 ≤ a) : 200 / 21 / a ≤ 0.0478 := by
  have hpos : (0 : ℝ) < a := by linarith
  rw [div_le_iff₀ hpos]
  nlinarith

theorem relDev_circlePts_bounds :
    0 ≤ relativeDeviation circlePts ∧ relativeDeviation circlePts ≤ 0.0312 := by
  have havg := avg_circlePts_bounds
  constructor
  · exact div_nonneg meandev_circlePts_nonneg
      (le_trans (by norm_num : (0 : ℝ) ≤ 199.6517) havg.1)
  · rw [relativeDeviation]
    exact div_bound_rd meandev_circlePts havg.1

theorem gap_circlePts : gap circlePts = 0 := by
  rw [gap]
  rw [show circlePts.getLastD ⟨0, 0⟩ = samplePt (0 * (π / 10)) from rfl,
    show circlePts.headD ⟨0, 0⟩ = samplePt (0 * (π / 10)) from rfl]
  simp

theorem distFromNucleus_circlePts : distFromNucleus circlePts ⟨500, 500⟩ = 200 / 21 := by
  rw [distFromNucleus, ucx_circlePts, ucy_circlePts]
  rw [show ((10700 / 21 : ℝ) - 500) ^ 2 + ((500 : ℝ) - 500) ^ 2 = (200 / 21) ^ 2 by norm_num]
  exact Real.sqrt_sq (by norm_num)

theorem ce_circlePts_bounds :
    0 ≤ centeringError circlePts ⟨500, 500⟩ ∧
      centeringError circlePts ⟨500, 500⟩ ≤ 0.0478 := by
  have havg := avg_circlePts_bounds
  rw [centeringError, distFromNucleus_circlePts]
  constructor
  · exact div_nonneg (by norm_num)
      (le_trans (by norm_num : (0 : ℝ) ≤ 199.6517) havg.1)
  · exact div_bound_ce havg.1

/-- Score arithmetic over abstract deviation and centering values. -/
theorem score_bound_helper {rd ce : ℝ} (_h1 : 0 ≤ rd) (h2 : rd ≤ 0.0312)
    (_h3 : 0 ≤ ce) (h4 : ce ≤ 0.0478) :
    100 * (1 - rd / 0.5) - ce * 10 > 40 ∧
      100 ≤ 100 * (1 - rd / 0.5) - ce * 10 + 8 := by
  have key : 100 * (1 - rd / 0.5) - ce * 10 = 100 - 200 * rd - 10 * ce := by ring
  rw [key]
  constructor <;> linarith

/-- Claim C7: on the concrete stroke of 20 points evenly sampled on the
circle of radius 200 centered at (500, 500) with point 0 repeated as the
final sample, and reference center (500, 500), the analyzer reports
`isTooSmall = false`, `notClosed = false`, `score = 100`, and the
top-tier message. -/
theorem claim7_perfect_circle :
    (analyzeCircle circlePts ⟨500, 500⟩).isTooSmall = false ∧
    (analyzeCircle circlePts ⟨500, 500⟩).notClosed = false ∧
    (analyzeCircle circlePts ⟨500, 500⟩).score = 100 ∧
    (analyzeCircle circlePts ⟨500, 500⟩).message = "ABSOLUTE PRECISION" := by
  have havg := avg_circlePts_bounds
  have hrd := relDev_circlePts_bounds
  have hce := ce_circlePts_bounds
  have havg0 : (0 : ℝ) ≤ avgRadius circlePts :=
    le_trans (by norm_num : (0 : ℝ) ≤ 199.6517) havg.1
  have hscore := score_bound_helper hrd.1 hrd.2 hce.1 hce.2
  have hpre : 100 ≤ preScore circlePts ⟨500, 500⟩ := by
    simp only [preScore]
    rw [gap_circlePts]
    rw [if_neg (not_lt.mpr (mul_nonneg havg0 (by norm_num : (0 : ℝ) ≤ 0.2)))]
    rw [if_pos hscore.1]
    exact hscore.2
  have hclamp : clampedScore circlePts ⟨500, 500⟩ = 100 := by
    rw [clampedScore, min_eq_left hpre, max_eq_right (by norm_num : (0 : ℝ) ≤ 100)]
  unfold analyzeCircle
  rw [if_neg (show ¬(circlePts.length < 10) by rw [length_circlePts]; norm_num),
    if_neg (not_lt.mpr (le_trans (by norm_num : (15 : ℝ) ≤ 199.6517) havg.1)),
    if_neg (show ¬(gap circlePts > avgRadius circlePts * 0.6) by
      rw [gap_circlePts]
      exact not_lt.mpr (mul_nonneg havg0 (by norm_num : (0 : ℝ) ≤ 0.6)))]
  rw [hclamp]
  refine ⟨rfl, rfl, ?_, ?_⟩
  · show ((round (100 : ℝ) : ℤ) : ℝ) = 100
    simp
  · show messageOf 100 = "ABSOLUTE PRECISION"
    rw [messageOf, if_pos (by norm_num : (100 : ℝ) > 98)]

end Atomic
